import Mathlib

set_option maxRecDepth 8000
set_option linter.unnecessarySeqFocus false

/-!
Verification development for the dataset synchronization engine of the
covid19-dashboard repository (`src/helpers/download.py`).

The Python module is shallowly embedded as follows:
* the local filesystem is an association list from paths (lists of
  components, mirroring `pathlib.Path.parts`) to entries; a write shadows
  earlier entries, so `FS.read` sees the most recent write;
* the network is a function from URLs to `Option Nat`: `some d` is a CSV
  body (abstracted by a numeric payload), `none` is an `HTTPError`;
* `pandas.Timestamp` values are modelled as a day number (days counted with
  the standard civil-calendar conversion `days_from_civil`) together with a
  seconds-within-day component that `normalize` clears; the vaccination
  marker timestamps are modelled as integers;
* raised Python exceptions are modelled by explicit error outcomes, and the
  `joblib.Parallel` executor is modelled by its deterministic sequential
  backend (`n_jobs = 1`, the path the module takes whenever debug logging is
  active): items run in list order and the first raised exception aborts the
  remaining items, exactly as `Parallel` re-raises the first error.
-/

namespace Covid

/-- A filesystem path, as the list of its components (mirrors
`pathlib.Path.parts`). -/
abbrev FPath := List String

/-- A filesystem entry: a directory, a CSV table written via
`DataFrame.to_csv` (abstracted by a numeric payload), or the vaccination
marker JSON file whose one relevant field is the `ultimo_aggiornamento`
timestamp. -/
inductive Entry where
  | dir : Entry
  | table : Nat → Entry
  | marker : Int → Entry
deriving DecidableEq, Repr

/-- The local filesystem: an association list from paths to entries. -/
abbrev FS := List (FPath × Entry)

/-- Look up the most recent entry written at `p`. -/
def FS.read : FS → FPath → Option Entry
  | [], _ => none
  | (q, en) :: rest, p => if q = p then some en else FS.read rest p

/-- Write entry `en` at path `p` (a later write shadows earlier ones). -/
def FS.write (fs : FS) (p : FPath) (en : Entry) : FS := (p, en) :: fs

/-- `pathlib.Path.exists()`. -/
def FS.hasFile (fs : FS) (p : FPath) : Bool := (fs.read p).isSome

/-- Parent-directory check used to embed `Path.mkdir()` with its default
flags (`parents=False`): creating `p` can succeed only when the parent of
`p` is the working directory (the empty path) or an existing directory. -/
def parentReady (fs : FS) (p : FPath) : Bool :=
  if p.dropLast = [] then true
  else if fs.read p.dropLast = some Entry.dir then true else false

/-- `create_dir` from `download.py` (lines 27-40): `Path(dir).mkdir()`
guarded by `Path.exists()`.  `mkdir` is embedded with the `pathlib`
defaults (`parents=False`, `exist_ok=False`), so it raises — modelled as
`none` — when the parent directory is missing. -/
def create_dir (fs : FS) (p : FPath) : Option FS :=
  if fs.hasFile p then some fs
  else if parentReady fs p then some (fs.write p Entry.dir) else none

/-- Strip from the front of a character list every character contained in
`cs` (Python's `str.lstrip(chars)` strips any of the given characters). -/
def lstripChars (cs : List Char) : List Char → List Char
  | [] => []
  | c :: rest => if c ∈ cs then lstripChars cs rest else c :: rest

/-- Python's `str.rstrip(chars)`. -/
def rstripChars (cs : List Char) (l : List Char) : List Char :=
  (lstripChars cs l.reverse).reverse

/-- Read a run of decimal digits as a number. -/
def parseDigits (l : List Char) : Nat :=
  l.foldl (fun acc c => acc * 10 + (c.toNat - 48)) 0

/-- Zero-pad the decimal rendering of `n` to `len` characters. -/
def padNum (len n : Nat) : String :=
  let s := toString n
  String.mk (List.replicate (len - s.length) '0') ++ s

/-- Days elapsed since the civil-calendar era base (0000-03-01) for the date
`y-m-d`; the standard civil-calendar conversion, specialised to `Nat` since
every date handled by the module is far later than year 1. -/
def days_from_civil (y m d : Nat) : Nat :=
  let y1 := if m ≤ 2 then y - 1 else y
  let era := y1 / 400
  let yoe := y1 % 400
  let mp := (m + 9) % 12
  let doy := (153 * mp + 2) / 5 + d - 1
  let doe := yoe * 365 + yoe / 4 - yoe / 100 + doy
  era * 146097 + doe

/-- Inverse of `days_from_civil`: the civil date `(y, m, d)` of a day
number. -/
def civil_from_days (z : Nat) : Nat × Nat × Nat :=
  let era := z / 146097
  let doe := z % 146097
  let yoe := (doe - doe / 1460 + doe / 36524 - doe / 146096) / 365
  let y := yoe + era * 400
  let doy := doe - (365 * yoe + yoe / 4 - yoe / 100)
  let mp := (5 * doy + 2) / 153
  let d := doy - (153 * mp + 2) / 5 + 1
  let m := if mp < 10 then mp + 3 else mp - 9
  (if m ≤ 2 then y + 1 else y, m, d)

/-- A `pandas.Timestamp`: a day number plus a seconds-within-day component;
`Timestamp.normalize` clears the time-of-day component. -/
structure Timestamp where
  day : Nat
  sec : Nat
deriving DecidableEq, Repr

def Timestamp.normalize (t : Timestamp) : Timestamp := ⟨t.day, 0⟩

/-- `pd.date_range(start_date, end_date, normalize=True)` (line 126): both
endpoints are normalized to midnight, then one day number is produced per
calendar day, inclusive of both ends (empty when start is after end). -/
def date_range (s e : Timestamp) : List Nat :=
  (List.range (e.normalize.day + 1 - s.normalize.day)).map
    (fun i => s.normalize.day + i)

def subdirNames : List String := ["dati-andamento-nazionale", "dati-regioni"]

/-- `subdir.parts[-1].lstrip('dati').lstrip('-')` (line 123). -/
def scopeTag (sd : String) : String :=
  String.mk (lstripChars ['-'] (lstripChars ['d', 'a', 't', 'i'] sd.toList))

/-- `date.strftime('%Y%m%d')` (line 124). -/
def yyyymmdd (z : Nat) : String :=
  match civil_from_days z with
  | (y, m, d) => padNum 4 y ++ padNum 2 m ++ padNum 2 d

/-- The file name `dpc-covid19-ita-<tag>-<yyyymmdd>.csv` built on lines
122-125. -/
def contagionFileName (sd : String) (z : Nat) : String :=
  "dpc-covid19-ita-" ++ scopeTag sd ++ "-" ++ yyyymmdd z ++ ".csv"

/-- The expected-file enumeration of `update_contagions` (lines 121-128):
one file per calendar day (outer loop) per scope subdirectory (inner
loop). -/
def expectedFiles (dir : FPath) (s e : Timestamp) : List FPath :=
  (date_range s e).flatMap
    (fun z => subdirNames.map (fun sd => dir ++ [sd, contagionFileName sd z]))

def contagionRemote : String :=
  "https://raw.githubusercontent.com/pcm-dpc/COVID-19/master"

/-- `"/".join([remote, *file.parts[-2:]])` (line 149). -/
def mkUrl (f : FPath) : String :=
  String.intercalate "/" (contagionRemote :: f.drop (f.length - 2))

/-- `pd.Timestamp(file.parts[-1].rstrip(".csv")[-8:])` (line 150): recover
the logical day number of a work item from its file name. -/
def fileDate (f : FPath) : Nat :=
  let name := (f.getLast?.getD "").toList
  let core := rstripChars ['.', 'c', 's', 'v'] name
  let l8 := core.drop (core.length - 8)
  days_from_civil (parseDigits (l8.take 4))
    (parseDigits ((l8.drop 4).take 2)) (parseDigits (l8.drop 6))

/-- Result of `download_csv` (lines 43-69): `ok` carries the fetched table,
`failed` is the boolean-`False` sentinel returned on an `HTTPError` when
`raise_error` is false, `raised` is the `RuntimeError` raised on an
`HTTPError` when `raise_error` is true. -/
inductive DlResult where
  | ok : Nat → DlResult
  | failed : DlResult
  | raised : DlResult
deriving DecidableEq, Repr

def download_csv (remote : String → Option Nat) (url : String)
    (raise_error : Bool) : DlResult :=
  match remote url with
  | some d => DlResult.ok d
  | none => if raise_error then DlResult.raised else DlResult.failed

/-- One work item of `update_contagions.update` (lines 144-160): fetch with
`raise_error = (date != today)`; on success write the table to the item's
path, on a tolerated miss do nothing, on a raised error report the item. -/
def contagions_item (remote : String → Option Nat) (today : Nat) (fs : FS)
    (file : FPath) : FS × Option FPath :=
  match download_csv remote (mkUrl file) (decide (fileDate file ≠ today)) with
  | DlResult.ok d => (fs.write file (Entry.table d), none)
  | DlResult.failed => (fs, none)
  | DlResult.raised => (fs, some file)

/-- The executor loop of `update_contagions` (lines 162-170), in the
deterministic sequential backend of `joblib.Parallel`: items run in list
order, each fetched URL is logged, and the first raised error aborts the
remaining items.  Returns the final filesystem, the fetch log, and the
first failed item, if any. -/
def run_items (remote : String → Option Nat) (today : Nat) :
    List FPath → FS → FS × List String × Option FPath
  | [], fs => (fs, [], none)
  | f :: rest, fs =>
    match contagions_item remote today fs f with
    | (fs1, none) =>
      ((run_items remote today rest fs1).1,
       mkUrl f :: (run_items remote today rest fs1).2.1,
       (run_items remote today rest fs1).2.2)
    | (fs1, some bad) => (fs1, [mkUrl f], some bad)

/-- The pruning step shared by both update functions (lines 130-140 and
245-255): collect the already-present files, then — unless `force` is set —
remove each of them from the work list with `list.remove`. -/
def prune (fs : FS) (files : List FPath) (force : Bool) : List FPath :=
  let existing := files.filter (fun f => fs.hasFile f)
  if force then files else existing.foldl (fun acc f => acc.erase f) files

/-- Sequential `create_dir` calls (lines 108-115); the first raised error
aborts the remaining creations. -/
def stage_dirs : FS → List FPath → FS × Bool
  | fs, [] => (fs, true)
  | fs, p :: ps =>
    match create_dir fs p with
    | some fs1 => stage_dirs fs1 ps
    | none => (fs, false)

def contagion_dirs (dir : FPath) : List FPath :=
  dir :: subdirNames.map (fun sd => dir ++ [sd])

/-- The work list of a contagions run: expected files minus the pruned
ones. -/
def contagion_plan (fs : FS) (dir : FPath) (s e : Timestamp)
    (force : Bool) : List FPath :=
  prune fs (expectedFiles dir s e) force

/-- Overall outcome of an update run: normal completion, the explicit
no-work return of the vaccination gate (line 239), a raised directory
creation error, a raised marker-file parse error, or the first raised
download error with its item. -/
inductive Outcome where
  | ok : Outcome
  | noWork : Outcome
  | mkdirErr : Outcome
  | badMarker : Outcome
  | httpErr : FPath → Outcome
deriving DecidableEq, Repr

/-- `update_contagions` (lines 72-170): stage the directory structure,
enumerate and prune the expected files, then run the work items.  `today`
is the day number of `pd.Timestamp.now().normalize()`; the caller resolves
the `end_date = None` default to the current date before the call. -/
def update_contagions (remote : String → Option Nat) (today : Nat)
    (dir : FPath) (s e : Timestamp) (force : Bool) (fs : FS) :
    FS × List String × Outcome :=
  match stage_dirs fs (contagion_dirs dir) with
  | (fs1, false) => (fs1, [], Outcome.mkdirErr)
  | (fs1, true) =>
    let r := run_items remote today (contagion_plan fs1 dir s e force) fs1
    (r.1, r.2.1, match r.2.2 with
      | none => Outcome.ok
      | some f => Outcome.httpErr f)

def vac_file_names : List String :=
  ["consegne-vaccini-latest.csv", "somministrazioni-vaccini-latest.csv",
   "platea.csv", "platea-dose-addizionale-booster.csv"]

def vacRemote : String :=
  "https://raw.githubusercontent.com/italia/covid19-opendata-vaccini/master/dati"

def lu_name : String := "last-update-dataset.json"

/-- `"/".join([remote, file.parts[-1]])` (line 264). -/
def vacUrl (f : FPath) : String :=
  String.intercalate "/" [vacRemote, f.getLast?.getD ""]

/-- The `ultimo_aggiornamento` timestamp stored in a marker file, when the
path holds one. -/
def readMarker (fs : FS) (p : FPath) : Option Int :=
  match fs.read p with
  | some (Entry.marker t) => some t
  | _ => none

/-- True when opening and JSON-parsing the marker file cannot raise: the
file is absent or holds a parseable marker record. -/
def markerOk (fs : FS) (p : FPath) : Bool :=
  match fs.read p with
  | some (Entry.table _) => false
  | some Entry.dir => false
  | _ => true

/-- Lines 220-226: the parsed `ultimo_aggiornamento` timestamp when the
marker file exists, else the epoch-zero sentinel
`pd.Timestamp(0, tz="UTC")`. -/
def localMarkerValue (fs : FS) (p : FPath) : Int :=
  (readMarker fs p).getD 0

/-- One work item of `update_vaccinations.update` (lines 259-268): fetch
with `raise_error=True`, write the table on success, raise on failure. -/
def vaccinations_item (remote : String → Option Nat) (fs : FS)
    (file : FPath) : FS × Option FPath :=
  match download_csv remote (vacUrl file) true with
  | DlResult.ok d => (fs.write file (Entry.table d), none)
  | _ => (fs, some file)

/-- Executor loop of `update_vaccinations` (lines 270-278), sequential
backend as for `run_items`. -/
def run_vac_items (remote : String → Option Nat) :
    List FPath → FS → FS × List String × Option FPath
  | [], fs => (fs, [], none)
  | f :: rest, fs =>
    match vaccinations_item remote fs f with
    | (fs1, none) =>
      ((run_vac_items remote rest fs1).1,
       vacUrl f :: (run_vac_items remote rest fs1).2.1,
       (run_vac_items remote rest fs1).2.2)
    | (fs1, some bad) => (fs1, [vacUrl f], some bad)

/-- `update_vaccinations` (lines 173-278).  `t_remote` is the
`ultimo_aggiornamento` timestamp of the remote marker JSON fetched on lines
229-232; its fetch is assumed to succeed (a failure there raises before
anything is touched).  The order is faithful to the source: the local
marker file is rewritten (lines 241-243) before the fixed files are
downloaded (lines 257-278). -/
def update_vaccinations (t_remote : Int) (remote : String → Option Nat)
    (dir : FPath) (force : Bool) (fs : FS) : FS × List String × Outcome :=
  match create_dir fs dir with
  | none => (fs, [], Outcome.mkdirErr)
  | some fs1 =>
    if markerOk fs1 (dir ++ [lu_name]) = false then (fs1, [], Outcome.badMarker)
    else if force = false ∧ t_remote ≤ localMarkerValue fs1 (dir ++ [lu_name]) then
      (fs1, [], Outcome.noWork)
    else
      let fs2 := fs1.write (dir ++ [lu_name]) (Entry.marker t_remote)
      let r := run_vac_items remote
        (prune fs2 (vac_file_names.map (fun n => dir ++ [n])) force) fs2
      (r.1, r.2.1, match r.2.2 with
        | none => Outcome.ok
        | some f => Outcome.httpErr f)

/-- The filesystem effect of fetching every item of `l` in order and
writing each successful fetch (used to describe the completed portion of an
aborted executor run). -/
def write_all (remote : String → Option Nat) (l : List FPath) (fs : FS) : FS :=
  l.foldl (fun a f =>
    match remote (mkUrl f) with
    | some d => a.write f (Entry.table d)
    | none => a) fs

/-- Day number of 2021-02-02, the "current date" of the concrete
scenarios. -/
def dayT : Nat := days_from_civil 2021 2 2

/-- Midnight timestamp of 2021-02-02. -/
def tsT : Timestamp := ⟨dayT, 0⟩

/-- A remote where every fetch succeeds with payload 7. -/
def remAll : String → Option Nat := fun _ => some 7

/-- A remote where every fetch fails. -/
def remNone : String → Option Nat := fun _ => none

/-- A remote where exactly the regional file of 2021-01-31 fails. -/
def rem6 : String → Option Nat := fun u =>
  if u = "https://raw.githubusercontent.com/pcm-dpc/COVID-19/master/dati-regioni/dpc-covid19-ita-regioni-20210131.csv"
  then none else some 7

/-- A vaccination directory whose marker holds timestamp 9. -/
def fsC2 : FS :=
  [(["data"], Entry.dir),
   (["data", "last-update-dataset.json"], Entry.marker 9)]

/-- A vaccination directory with marker timestamp 1 and all four fixed
files present. -/
def fsC10 : FS :=
  [(["data"], Entry.dir),
   (["data", "last-update-dataset.json"], Entry.marker 1),
   (["data", "consegne-vaccini-latest.csv"], Entry.table 11),
   (["data", "somministrazioni-vaccini-latest.csv"], Entry.table 12),
   (["data", "platea.csv"], Entry.table 13),
   (["data", "platea-dose-addizionale-booster.csv"], Entry.table 14)]

/-- A contagions directory already holding the national file of 2021-02-02
with content 42. -/
def fsW : FS :=
  [(["data"], Entry.dir),
   (["data", "dati-andamento-nazionale",
     "dpc-covid19-ita-andamento-nazionale-20210202.csv"], Entry.table 42)]

theorem FS.read_write (fs : FS) (p q : FPath) (en : Entry) :
    (fs.write p en).read q = if p = q then some en else fs.read q := rfl

theorem FS.read_write_self (fs : FS) (p : FPath) (en : Entry) :
    (fs.write p en).read p = some en := by
  simp [FS.read_write]

theorem FS.read_write_ne (fs : FS) (p q : FPath) (en : Entry) (h : p ≠ q) :
    (fs.write p en).read q = fs.read q := by
  simp [FS.read_write, h]

theorem create_dir_read_ne {fs fs' : FS} {p : FPath} (q : FPath)
    (h : create_dir fs p = some fs') (hq : p ≠ q) :
    fs'.read q = fs.read q := by
  unfold create_dir at h
  split at h
  · cases h; rfl
  · split at h
    · cases h; exact FS.read_write_ne _ _ _ _ hq
    · cases h

theorem create_dir_preserve {fs fs' : FS} {p : FPath} {q : FPath} {en : Entry}
    (h : create_dir fs p = some fs') (hc : fs.read q = some en) :
    fs'.read q = some en := by
  by_cases hpq : p = q
  · subst hpq
    unfold create_dir at h
    rw [if_pos (by simp [FS.hasFile, hc])] at h
    cases h; exact hc
  · rw [create_dir_read_ne q h hpq]; exact hc

theorem create_dir_hasFile {fs fs' : FS} {p : FPath}
    (h : create_dir fs p = some fs') : fs'.hasFile p = true := by
  unfold create_dir at h
  split at h
  · cases h; assumption
  · split at h
    · cases h; simp [FS.hasFile, FS.read_write_self]
    · cases h

theorem create_dir_of_hasFile {fs : FS} {p : FPath}
    (h : fs.hasFile p = true) : create_dir fs p = some fs := by
  unfold create_dir
  rw [if_pos h]

theorem contagions_item_ok {remote : String → Option Nat} {today : Nat}
    {fs : FS} {file : FPath} {d : Nat} (h : remote (mkUrl file) = some d) :
    contagions_item remote today fs file =
      (fs.write file (Entry.table d), none) := by
  simp [contagions_item, download_csv, h]

theorem contagions_item_skip {remote : String → Option Nat} {today : Nat}
    {fs : FS} {file : FPath} (h : remote (mkUrl file) = none)
    (ht : fileDate file = today) :
    contagions_item remote today fs file = (fs, none) := by
  simp [contagions_item, download_csv, h, ht]

theorem contagions_item_raised {remote : String → Option Nat} {today : Nat}
    {fs : FS} {file : FPath} (h : remote (mkUrl file) = none)
    (ht : fileDate file ≠ today) :
    contagions_item remote today fs file = (fs, some file) := by
  simp [contagions_item, download_csv, h, ht]

theorem run_items_read_not_mem (remote : String → Option Nat) (today : Nat)
    (l : List FPath) (fs : FS) (p : FPath) (hp : p ∉ l) :
    ((run_items remote today l fs).1).read p = fs.read p := by
  induction l generalizing fs with
  | nil => rfl
  | cons f rest ih =>
    have hfp : f ≠ p := fun h => hp (h ▸ List.mem_cons_self f rest)
    have hrest : p ∉ rest := fun h => hp (List.mem_cons_of_mem f h)
    cases hfetch : remote (mkUrl f) with
    | some d =>
      rw [run_items, contagions_item_ok hfetch]
      rw [ih _ hrest, FS.read_write_ne _ _ _ _ hfp]
    | none =>
      by_cases ht : fileDate f = today
      · rw [run_items, contagions_item_skip hfetch ht]
        exact ih _ hrest
      · rw [run_items, contagions_item_raised hfetch ht]

theorem run_items_log_mem {remote : String → Option Nat} {today : Nat}
    {l : List FPath} {fs : FS} {u : String}
    (hu : u ∈ (run_items remote today l fs).2.1) :
    ∃ f, f ∈ l ∧ u = mkUrl f := by
  induction l generalizing fs with
  | nil => cases hu
  | cons f rest ih =>
    cases hfetch : remote (mkUrl f) with
    | some d =>
      rw [run_items, contagions_item_ok hfetch] at hu
      rcases List.mem_cons.1 hu with rfl | hu
      · exact ⟨f, List.mem_cons_self f rest, rfl⟩
      · obtain ⟨g, hg, hgu⟩ := ih hu
        exact ⟨g, List.mem_cons_of_mem f hg, hgu⟩
    | none =>
      by_cases ht : fileDate f = today
      · rw [run_items, contagions_item_skip hfetch ht] at hu
        rcases List.mem_cons.1 hu with rfl | hu
        · exact ⟨f, List.mem_cons_self f rest, rfl⟩
        · obtain ⟨g, hg, hgu⟩ := ih hu
          exact ⟨g, List.mem_cons_of_mem f hg, hgu⟩
      · rw [run_items, contagions_item_raised hfetch ht] at hu
        rcases List.mem_cons.1 hu with rfl | hu
        · exact ⟨f, List.mem_cons_self f rest, rfl⟩
        · cases hu

theorem run_items_success (remote : String → Option Nat) (today : Nat)
    (l : List FPath) (fs : FS)
    (h : ∀ f ∈ l, (remote (mkUrl f)).isSome = true) :
    (run_items remote today l fs).2.1 = l.map mkUrl ∧
    (run_items remote today l fs).2.2 = none ∧
    ∀ f ∈ l, ((run_items remote today l fs).1).read f =
      Option.map Entry.table (remote (mkUrl f)) := by
  induction l generalizing fs with
  | nil => exact ⟨rfl, rfl, fun f hf => absurd hf (List.not_mem_nil f)⟩
  | cons g rest ih =>
    obtain ⟨d, hd⟩ := Option.isSome_iff_exists.1
      (h g (List.mem_cons_self g rest))
    have hrest : ∀ f ∈ rest, (remote (mkUrl f)).isSome = true :=
      fun f hf => h f (List.mem_cons_of_mem g hf)
    obtain ⟨ihlog, iherr, ihread⟩ := ih (fs.write g (Entry.table d)) hrest
    rw [run_items, contagions_item_ok hd]
    refine ⟨by simpa using ihlog, iherr, ?_⟩
    intro f hf
    rcases List.mem_cons.1 hf with rfl | hf
    · by_cases hmem : f ∈ rest
      · exact ihread f hmem
      · rw [run_items_read_not_mem _ _ _ _ _ hmem,
          FS.read_write_self, hd]
        rfl
    · exact ihread f hf

theorem count_foldl_erase (ex l : List FPath) (a : FPath) :
    ((ex.foldl (fun acc f => acc.erase f) l).count a) =
      l.count a - ex.count a := by
  induction ex generalizing l with
  | nil => simp
  | cons b ex ih =>
    simp only [List.foldl_cons, List.count_cons, ih, List.count_erase]
    cases hb : b == a <;> simp [hb] <;> omega

theorem mem_prune_false {fs : FS} {files : List FPath} {f : FPath} :
    f ∈ prune fs files false ↔ f ∈ files ∧ fs.hasFile f = false := by
  unfold prune
  simp only [Bool.false_eq_true, if_false]
  constructor
  · intro hmem
    have h0 : 0 < ((files.filter (fun g => fs.hasFile g)).foldl
        (fun acc g => acc.erase g) files).count f :=
      List.count_pos_iff.2 hmem
    rw [count_foldl_erase] at h0
    have hfmem : f ∈ files := List.count_pos_iff.1 (by omega)
    refine ⟨hfmem, ?_⟩
    by_contra hne
    have htrue : fs.hasFile f = true := by
      cases hh : fs.hasFile f
      · exact absurd hh hne
      · rfl
    rw [List.count_filter (by simpa using htrue)] at h0
    omega
  · intro ⟨hf, hnf⟩
    apply List.count_pos_iff.1
    rw [count_foldl_erase]
    have hzero : (files.filter (fun g => fs.hasFile g)).count f = 0 :=
      List.count_eq_zero.2 (fun hmem => by
        have := (List.mem_filter.1 hmem).2
        rw [hnf] at this
        cases this)
    have hpos : 0 < files.count f := List.count_pos_iff.2 hf
    omega

theorem prune_force (fs : FS) (files : List FPath) :
    prune fs files true = files := by
  simp [prune]

theorem prune_sub {fs : FS} {files : List FPath} {force : Bool} {f : FPath}
    (h : f ∈ prune fs files force) : f ∈ files := by
  cases force
  · exact (mem_prune_false.1 h).1
  · rw [prune_force] at h; exact h

theorem stage_dirs_preserve {ps : List FPath} {fs fs' : FS} {b : Bool}
    {q : FPath} {en : Entry} (h : stage_dirs fs ps = (fs', b))
    (hc : fs.read q = some en) : fs'.read q = some en := by
  induction ps generalizing fs with
  | nil =>
    rw [stage_dirs] at h
    cases h
    exact hc
  | cons p ps ih =>
    rw [stage_dirs] at h
    cases hcd : create_dir fs p with
    | none => rw [hcd] at h; cases h; exact hc
    | some fs1 =>
      rw [hcd] at h
      exact ih h (create_dir_preserve hcd hc)

theorem stage_dirs_post {ps : List FPath} {fs fs' : FS}
    (h : stage_dirs fs ps = (fs', true)) :
    ∀ p ∈ ps, fs'.hasFile p = true := by
  induction ps generalizing fs with
  | nil => intro p hp; cases hp
  | cons q ps ih =>
    rw [stage_dirs] at h
    cases hcd : create_dir fs q with
    | none => rw [hcd] at h; cases h
    | some fs1 =>
      rw [hcd] at h
      intro p hp
      rcases List.mem_cons.1 hp with rfl | hp
      · obtain ⟨en, hen⟩ := Option.isSome_iff_exists.1 (create_dir_hasFile hcd)
        have := stage_dirs_preserve h hen
        simp [FS.hasFile, this]
      · exact ih h p hp

theorem stage_dirs_of_all {ps : List FPath} {fs : FS}
    (h : ∀ p ∈ ps, fs.hasFile p = true) :
    stage_dirs fs ps = (fs, true) := by
  induction ps with
  | nil => rfl
  | cons q ps ih =>
    rw [stage_dirs, create_dir_of_hasFile (h q (List.mem_cons_self q ps))]
    exact ih (fun p hp => h p (List.mem_cons_of_mem q hp))

theorem run_vac_items_read_not_mem (remote : String → Option Nat)
    (l : List FPath) (fs : FS) (p : FPath) (hp : p ∉ l) :
    ((run_vac_items remote l fs).1).read p = fs.read p := by
  induction l generalizing fs with
  | nil => rfl
  | cons f rest ih =>
    have hfp : f ≠ p := fun h => hp (h ▸ List.mem_cons_self f rest)
    have hrest : p ∉ rest := fun h => hp (List.mem_cons_of_mem f h)
    cases hfetch : remote (vacUrl f) with
    | some d =>
      rw [run_vac_items]
      simp only [vaccinations_item, download_csv, hfetch]
      rw [ih _ hrest, FS.read_write_ne _ _ _ _ hfp]
    | none =>
      rw [run_vac_items]
      simp [vaccinations_item, download_csv, hfetch]

/-- C7 counterexample: on an empty filesystem, creating `a/b` — whose parent
directory `a` is absent — makes `Path.mkdir` (default `parents=False`) raise
`FileNotFoundError`, modelled as `none`; `create_dir` does not create the
missing parent structure, contrary to the claim. -/
theorem create_dir_missing_parent_raises :
    create_dir [] ["a", "b"] = none := by decide

/-- C7 amended: `create_dir` is a no-op when the directory already exists
(and never raises for that reason), and it creates the directory when it is
absent provided its parent directory exists; missing parents are not
created. -/
theorem create_dir_spec (fs : FS) (p : FPath) :
    (fs.hasFile p = true → create_dir fs p = some fs) ∧
    (fs.hasFile p = false → parentReady fs p = true →
      create_dir fs p = some (fs.write p Entry.dir)) := by
  constructor
  · exact create_dir_of_hasFile
  · intro h1 h2
    unfold create_dir
    rw [if_neg (by simp [h1]), if_pos h2]

/-- Concrete instances of the amended C7 contract: a no-op on an existing
directory and a creation under an existing parent. -/
theorem create_dir_spec_check :
    create_dir [(["a"], Entry.dir)] ["a"] = some [(["a"], Entry.dir)] ∧
    create_dir [] ["a"] = some (FS.write [] ["a"] Entry.dir) :=
  ⟨(create_dir_spec [(["a"], Entry.dir)] ["a"]).1 (by decide),
   (create_dir_spec [] ["a"]).2 (by decide) (by decide)⟩

theorem expectedFiles_length (dir : FPath) (s e : Timestamp) :
    (expectedFiles dir s e).length = 2 * (date_range s e).length := by
  unfold expectedFiles
  generalize date_range s e = l
  induction l with
  | nil => rfl
  | cons z l ih =>
    simp only [List.flatMap_cons, List.length_append, List.length_cons, ih]
    simp [subdirNames]
    omega

theorem expectedFiles_mem_shape {dir : FPath} {s e : Timestamp} {f : FPath}
    (h : f ∈ expectedFiles dir s e) :
    ∃ z sd, sd ∈ subdirNames ∧ f = dir ++ [sd, contagionFileName sd z] := by
  unfold expectedFiles at h
  simp only [List.mem_flatMap, List.mem_map] at h
  obtain ⟨z, _, sd, hsd, rfl⟩ := h
  exact ⟨z, sd, hsd, rfl⟩

theorem contagion_dirs_not_in_plan {dir : FPath} {fs : FS} {s e : Timestamp}
    {force : Bool} {p : FPath} (hp : p ∈ contagion_dirs dir) :
    p ∉ contagion_plan fs dir s e force := by
  intro hmem
  obtain ⟨z, sd, _, heq⟩ := expectedFiles_mem_shape (prune_sub hmem)
  rcases List.mem_cons.1 hp with rfl | hp2
  · have := congrArg List.length heq
    simp [List.length_append] at this
  · simp only [List.mem_map] at hp2
    obtain ⟨sd2, _, rfl⟩ := hp2
    have := congrArg List.length heq
    simp [List.length_append] at this

theorem update_contagions_run {remote : String → Option Nat} {today : Nat}
    {dir : FPath} {s e : Timestamp} {force : Bool} {fs fs1 : FS}
    (hstage : stage_dirs fs (contagion_dirs dir) = (fs1, true)) :
    update_contagions remote today dir s e force fs =
      ((run_items remote today (contagion_plan fs1 dir s e force) fs1).1,
       (run_items remote today (contagion_plan fs1 dir s e force) fs1).2.1,
       match (run_items remote today (contagion_plan fs1 dir s e force) fs1).2.2 with
       | none => Outcome.ok
       | some f => Outcome.httpErr f) := by
  unfold update_contagions
  rw [hstage]

/-- C3: the expected-file enumeration of `update_contagions` normalizes
dates to midnight before enumeration, is inclusive of both endpoints,
enumerates exactly the closed interval of day numbers (no skipped or
duplicated days), produces one file per day per scope subdirectory, and on
start=2021-01-30, end=2021-02-02 yields exactly the 8 distinct files for
the days 01-30, 01-31, 02-01, 02-02 in each of the two scopes. -/
theorem contagions_inclusive_range :
    (∀ s e : Timestamp, date_range s e = date_range s.normalize e.normalize) ∧
    (∀ (s e : Timestamp) (z : Nat),
      z ∈ date_range s e ↔ s.normalize.day ≤ z ∧ z ≤ e.normalize.day) ∧
    (∀ (dir : FPath) (s e : Timestamp),
      (expectedFiles dir s e).length = 2 * (date_range s e).length) ∧
    date_range ⟨days_from_civil 2021 1 30, 3600⟩ ⟨days_from_civil 2021 2 2, 59⟩ =
      [days_from_civil 2021 1 30, days_from_civil 2021 1 31,
       days_from_civil 2021 2 1, days_from_civil 2021 2 2] ∧
    expectedFiles ["d"] ⟨days_from_civil 2021 1 30, 3600⟩
        ⟨days_from_civil 2021 2 2, 59⟩ =
      [["d", "dati-andamento-nazionale",
        "dpc-covid19-ita-andamento-nazionale-20210130.csv"],
       ["d", "dati-regioni", "dpc-covid19-ita-regioni-20210130.csv"],
       ["d", "dati-andamento-nazionale",
        "dpc-covid19-ita-andamento-nazionale-20210131.csv"],
       ["d", "dati-regioni", "dpc-covid19-ita-regioni-20210131.csv"],
       ["d", "dati-andamento-nazionale",
        "dpc-covid19-ita-andamento-nazionale-20210201.csv"],
       ["d", "dati-regioni", "dpc-covid19-ita-regioni-20210201.csv"],
       ["d", "dati-andamento-nazionale",
        "dpc-covid19-ita-andamento-nazionale-20210202.csv"],
       ["d", "dati-regioni", "dpc-covid19-ita-regioni-20210202.csv"]] ∧
    (expectedFiles ["d"] ⟨days_from_civil 2021 1 30, 3600⟩
        ⟨days_from_civil 2021 2 2, 59⟩).Nodup := by
  refine ⟨fun s e => rfl, fun s e z => ?_, expectedFiles_length,
    by decide, by decide, by decide⟩
  simp only [date_range, List.mem_map, List.mem_range, Timestamp.normalize]
  constructor
  · rintro ⟨i, hi, rfl⟩
    omega
  · rintro ⟨h1, h2⟩
    exact ⟨z - s.day, by omega, by omega⟩

/-- C4 counterexample: after a first contagions run in which the current
date's file was fetched successfully (so it is present locally), a second
identical run with unchanged state prunes it like any other present file:
the second run performs zero fetches, so the today file is NOT always
re-attempted. -/
theorem second_run_skips_present_today_file :
    fileDate ["data", "dati-andamento-nazionale",
      "dpc-covid19-ita-andamento-nazionale-20210202.csv"] = dayT ∧
    ["data", "dati-andamento-nazionale",
      "dpc-covid19-ita-andamento-nazionale-20210202.csv"] ∈
        expectedFiles ["data"] tsT tsT ∧
    (update_contagions remAll dayT ["data"] tsT tsT false []).1.hasFile
      ["data", "dati-andamento-nazionale",
       "dpc-covid19-ita-andamento-nazionale-20210202.csv"] = true ∧
    (update_contagions remAll dayT ["data"] tsT tsT false
      (update_contagions remAll dayT ["data"] tsT tsT false []).1).2.1 = [] := by
  decide

/-- C4 amended: with `force=false` and remote and local state unchanged
between two identical runs, the second run's work list is exactly the set
of expected files still absent after the first run — zero fetches occur for
any locally present file — and the current date's file is re-attempted
precisely when it is absent after the first run (as when its first-run
fetch returned Not-Found), not always. -/
theorem second_run_prunes_present_files
    (remote : String → Option Nat) (today : Nat) (dir : FPath)
    (s e : Timestamp) (fs fs1 : FS)
    (hstage : stage_dirs fs (contagion_dirs dir) = (fs1, true)) :
    (∀ u ∈ (update_contagions remote today dir s e false
        ((update_contagions remote today dir s e false fs).1)).2.1,
      ∃ f, f ∈ expectedFiles dir s e ∧
        ((update_contagions remote today dir s e false fs).1).hasFile f = false ∧
        u = mkUrl f) ∧
    (∀ f ∈ expectedFiles dir s e,
      f ∈ contagion_plan ((update_contagions remote today dir s e false fs).1)
          dir s e false ↔
        ((update_contagions remote today dir s e false fs).1).hasFile f = false) := by
  have hrun1 := @update_contagions_run remote today dir s e false fs fs1 hstage
  have hdirs : ∀ p ∈ contagion_dirs dir,
      ((update_contagions remote today dir s e false fs).1).hasFile p = true := by
    intro p hp
    rw [hrun1]
    obtain ⟨en, hen⟩ := Option.isSome_iff_exists.1 (stage_dirs_post hstage p hp)
    show (((run_items remote today (contagion_plan fs1 dir s e false) fs1).1).read p).isSome = true
    rw [run_items_read_not_mem _ _ _ _ _ (contagion_dirs_not_in_plan hp), hen]
    rfl
  have hstage2 := stage_dirs_of_all hdirs
  have hrun2 := @update_contagions_run remote today dir s e false _ _ hstage2
  constructor
  · intro u hu
    rw [hrun2] at hu
    obtain ⟨f, hf, rfl⟩ := run_items_log_mem hu
    have := mem_prune_false.1 hf
    exact ⟨f, this.1, this.2, rfl⟩
  · intro f hf
    constructor
    · intro h
      exact (mem_prune_false.1 h).2
    · intro h
      exact mem_prune_false.2 ⟨hf, h⟩

/-- Concrete instance of the amended C4 statement: the today file, present
after the first run, is not in the second run's work list. -/
theorem second_run_prunes_present_files_check :
    (["data", "dati-andamento-nazionale",
      "dpc-covid19-ita-andamento-nazionale-20210202.csv"] ∈
        contagion_plan ((update_contagions remAll dayT ["data"] tsT tsT false []).1)
          ["data"] tsT tsT false ↔
      ((update_contagions remAll dayT ["data"] tsT tsT false []).1).hasFile
        ["data", "dati-andamento-nazionale",
         "dpc-covid19-ita-andamento-nazionale-20210202.csv"] = false) := by
  have h := second_run_prunes_present_files remAll dayT ["data"] tsT tsT []
    ((stage_dirs [] (contagion_dirs ["data"])).1) (by decide)
  exact h.2 _ (by decide)

/-- C5: a work item whose logical date equals the current date and whose
fetch misses is skipped: no file is written and no error is recorded for it
(the executor state equals the one obtained by running the remaining items
from the same filesystem), only its URL is logged, and the remaining items
are still processed. -/
theorem today_item_miss_skipped (remote : String → Option Nat) (today : Nat)
    (f : FPath) (rest : List FPath) (fs : FS)
    (ht : fileDate f = today) (hn : remote (mkUrl f) = none) :
    run_items remote today (f :: rest) fs =
      ((run_items remote today rest fs).1,
       mkUrl f :: (run_items remote today rest fs).2.1,
       (run_items remote today rest fs).2.2) := by
  rw [run_items, contagions_item_skip hn ht]

/-- Concrete instance of C5: the single today item misses, is skipped, and
the run ends cleanly. -/
theorem today_item_miss_skipped_check :
    run_items remNone dayT
      [["data", "dati-andamento-nazionale",
        "dpc-covid19-ita-andamento-nazionale-20210202.csv"]] [] =
      ([], [mkUrl ["data", "dati-andamento-nazionale",
        "dpc-covid19-ita-andamento-nazionale-20210202.csv"]], none) := by
  have h := today_item_miss_skipped remNone dayT
    ["data", "dati-andamento-nazionale",
     "dpc-covid19-ita-andamento-nazionale-20210202.csv"] [] []
    (by decide) rfl
  simpa using h

/-- C6 counterexample: with the regional 2021-01-31 fetch missing
(historical date) and every other fetch succeeding, the run raises that
single item's error immediately: the items after it — whose fetches would
have succeeded — are never written, so the claim's "all other items are
still completed and an aggregate failure is raised at the end" fails. -/
theorem historical_miss_aborts_run :
    (update_contagions rem6 dayT ["data"] ⟨days_from_civil 2021 1 31, 0⟩
        ⟨days_from_civil 2021 2 1, 0⟩ false []).2.2 =
      Outcome.httpErr ["data", "dati-regioni",
        "dpc-covid19-ita-regioni-20210131.csv"] ∧
    (update_contagions rem6 dayT ["data"] ⟨days_from_civil 2021 1 31, 0⟩
        ⟨days_from_civil 2021 2 1, 0⟩ false []).1.read
      ["data", "dati-andamento-nazionale",
       "dpc-covid19-ita-andamento-nazionale-20210131.csv"] =
        some (Entry.table 7) ∧
    (update_contagions rem6 dayT ["data"] ⟨days_from_civil 2021 1 31, 0⟩
        ⟨days_from_civil 2021 2 1, 0⟩ false []).1.read
      ["data", "dati-andamento-nazionale",
       "dpc-covid19-ita-andamento-nazionale-20210201.csv"] = none ∧
    rem6 (mkUrl ["data", "dati-andamento-nazionale",
      "dpc-covid19-ita-andamento-nazionale-20210201.csv"]) = some 7 := by
  decide

/-- C6 amended: when one historical-date item's fetch returns Not-Found,
the items before it are completed (their files written), that single item's
error is raised immediately — aborting the remaining items — and no
aggregate of all failures is produced: the run result carries exactly the
first failing item. -/
theorem historical_miss_raises_immediately
    (remote : String → Option Nat) (today : Nat) (fs : FS)
    (pre post : List FPath) (bad : FPath)
    (hpre : ∀ f ∈ pre, (remote (mkUrl f)).isSome = true)
    (hbad : remote (mkUrl bad) = none) (hdate : fileDate bad ≠ today) :
    run_items remote today (pre ++ bad :: post) fs =
      (write_all remote pre fs, (pre ++ [bad]).map mkUrl, some bad) := by
  induction pre generalizing fs with
  | nil =>
    simp only [List.nil_append, List.map_cons, List.map_nil]
    rw [run_items, contagions_item_raised hbad hdate]
    rfl
  | cons g pre ih =>
    obtain ⟨d, hd⟩ := Option.isSome_iff_exists.1
      (hpre g (List.mem_cons_self g pre))
    have hih := ih (fs.write g (Entry.table d))
      (fun f hf => hpre f (List.mem_cons_of_mem g hf))
    simp only [List.cons_append]
    rw [run_items, contagions_item_ok hd]
    show ((run_items remote today (pre ++ bad :: post)
        (fs.write g (Entry.table d))).1,
      mkUrl g :: (run_items remote today (pre ++ bad :: post)
        (fs.write g (Entry.table d))).2.1,
      (run_items remote today (pre ++ bad :: post)
        (fs.write g (Entry.table d))).2.2) =
      (write_all remote (g :: pre) fs,
        List.map mkUrl (g :: (pre ++ [bad])), some bad)
    rw [hih]
    simp [write_all, hd]

/-- Concrete instance of the amended C6 statement. -/
theorem historical_miss_raises_immediately_check :
    run_items rem6 dayT
      ([["data", "dati-andamento-nazionale",
         "dpc-covid19-ita-andamento-nazionale-20210131.csv"]] ++
        ["data", "dati-regioni", "dpc-covid19-ita-regioni-20210131.csv"] ::
        [["data", "dati-andamento-nazionale",
          "dpc-covid19-ita-andamento-nazionale-20210201.csv"]]) [] =
      (write_all rem6 [["data", "dati-andamento-nazionale",
         "dpc-covid19-ita-andamento-nazionale-20210131.csv"]] [],
       ([["data", "dati-andamento-nazionale",
          "dpc-covid19-ita-andamento-nazionale-20210131.csv"]] ++
         [["data", "dati-regioni",
           "dpc-covid19-ita-regioni-20210131.csv"]]).map mkUrl,
       some ["data", "dati-regioni", "dpc-covid19-ita-regioni-20210131.csv"]) :=
  historical_miss_raises_immediately rem6 dayT []
    [["data", "dati-andamento-nazionale",
      "dpc-covid19-ita-andamento-nazionale-20210131.csv"]]
    [["data", "dati-andamento-nazionale",
      "dpc-covid19-ita-andamento-nazionale-20210201.csv"]]
    ["data", "dati-regioni", "dpc-covid19-ita-regioni-20210131.csv"]
    (by decide) (by decide) (by decide)

theorem vac_files_ne_marker {dir : FPath} {f : FPath}
    (h : f ∈ vac_file_names.map (fun n => dir ++ [n])) :
    f ≠ dir ++ [lu_name] := by
  simp only [List.mem_map] at h
  obtain ⟨n, hn, rfl⟩ := h
  intro heq
  have hcan : n = lu_name := by
    have := List.append_cancel_left heq
    simpa using this
  subst hcan
  exact absurd hn (by decide)

theorem update_vaccinations_proceed {t_remote : Int}
    {remote : String → Option Nat} {dir : FPath} {force : Bool} {fs fs1 : FS}
    (hcd : create_dir fs dir = some fs1)
    (hok : markerOk fs1 (dir ++ [lu_name]) = true)
    (hgate : ¬(force = false ∧
      t_remote ≤ localMarkerValue fs1 (dir ++ [lu_name]))) :
    update_vaccinations t_remote remote dir force fs =
      ((run_vac_items remote
          (prune (fs1.write (dir ++ [lu_name]) (Entry.marker t_remote))
            (vac_file_names.map (fun n => dir ++ [n])) force)
          (fs1.write (dir ++ [lu_name]) (Entry.marker t_remote))).1,
       (run_vac_items remote
          (prune (fs1.write (dir ++ [lu_name]) (Entry.marker t_remote))
            (vac_file_names.map (fun n => dir ++ [n])) force)
          (fs1.write (dir ++ [lu_name]) (Entry.marker t_remote))).2.1,
       match (run_vac_items remote
          (prune (fs1.write (dir ++ [lu_name]) (Entry.marker t_remote))
            (vac_file_names.map (fun n => dir ++ [n])) force)
          (fs1.write (dir ++ [lu_name]) (Entry.marker t_remote))).2.2 with
       | none => Outcome.ok
       | some f => Outcome.httpErr f) := by
  unfold update_vaccinations
  simp only [hcd]
  rw [if_neg (by simp [hok]), if_neg hgate]

/-- C1 (code bug, concrete failing run): with no prior marker file, remote
marker timestamp 5 and every fixed-file download failing, the run raises on
the first fixed file — yet the local marker file has already been rewritten
to the remote value instead of being left unchanged (it was absent before
the run): the marker write (lines 241-243) precedes the download pass
(lines 257-278), so a failing pass still advances local freshness state. -/
theorem failed_vac_run_advances_marker :
    (update_vaccinations 5 remNone ["data"] false []).2.2 =
      Outcome.httpErr ["data", "consegne-vaccini-latest.csv"] ∧
    (update_vaccinations 5 remNone ["data"] false []).1.read
      ["data", "last-update-dataset.json"] = some (Entry.marker 5) ∧
    FS.read [] ["data", "last-update-dataset.json"] = none := by
  decide

/-- C2: with `force=false` and a fetched remote marker not strictly greater
than the persisted local marker, `update_vaccinations` returns the explicit
no-work result immediately: the fetch log is empty (no data-file download
is attempted) and every path other than the target directory itself — in
particular every dataset file and the marker file — is untouched. -/
theorem vac_gate_no_work (t_remote : Int) (remote : String → Option Nat)
    (dir : FPath) (fs fs1 : FS)
    (hcd : create_dir fs dir = some fs1)
    (hok : markerOk fs1 (dir ++ [lu_name]) = true)
    (hle : t_remote ≤ localMarkerValue fs1 (dir ++ [lu_name])) :
    (update_vaccinations t_remote remote dir false fs).2.1 = [] ∧
    (update_vaccinations t_remote remote dir false fs).2.2 = Outcome.noWork ∧
    ∀ p, p ≠ dir →
      (update_vaccinations t_remote remote dir false fs).1.read p =
        fs.read p := by
  have hmain : update_vaccinations t_remote remote dir false fs =
      (fs1, [], Outcome.noWork) := by
    unfold update_vaccinations
    simp only [hcd]
    rw [if_neg (by simp [hok]), if_pos (And.intro (by simp) hle)]
  rw [hmain]
  exact ⟨rfl, rfl, fun p hp => create_dir_read_ne p hcd (fun h => hp h.symm)⟩

/-- Concrete instance of C2: remote marker 9 equals the persisted local
marker 9, so nothing is fetched, the result is the no-work return, and a
dataset path is untouched. -/
theorem vac_gate_no_work_check :
    (update_vaccinations 9 remAll ["data"] false fsC2).2.1 = [] ∧
    (update_vaccinations 9 remAll ["data"] false fsC2).2.2 = Outcome.noWork ∧
    (update_vaccinations 9 remAll ["data"] false fsC2).1.read
      ["data", "platea.csv"] = FS.read fsC2 ["data", "platea.csv"] := by
  have h := vac_gate_no_work 9 remAll ["data"] fsC2 fsC2
    (by decide) (by decide) (by decide)
  exact ⟨h.1, h.2.1, h.2.2 _ (by decide)⟩

/-- C8: when no marker file is persisted the local marker value used by the
gate is the epoch-zero sentinel 0, so for any genuinely fetched (positive)
remote timestamp and `force=false` the run proceeds with a first sync: the
result is not the no-work return and the marker file is written with the
remote value. -/
theorem vac_first_sync_sentinel (t_remote : Int)
    (remote : String → Option Nat) (dir : FPath) (fs fs1 : FS)
    (hcd : create_dir fs dir = some fs1)
    (habs : fs1.read (dir ++ [lu_name]) = none)
    (hpos : 0 < t_remote) :
    localMarkerValue fs1 (dir ++ [lu_name]) = 0 ∧
    (update_vaccinations t_remote remote dir false fs).2.2 ≠ Outcome.noWork ∧
    (update_vaccinations t_remote remote dir false fs).1.read
      (dir ++ [lu_name]) = some (Entry.marker t_remote) := by
  have hval : localMarkerValue fs1 (dir ++ [lu_name]) = 0 := by
    simp [localMarkerValue, readMarker, habs]
  have hok : markerOk fs1 (dir ++ [lu_name]) = true := by
    simp [markerOk, habs]
  have hgate : ¬((false : Bool) = false ∧
      t_remote ≤ localMarkerValue fs1 (dir ++ [lu_name])) := by
    rintro ⟨-, hle⟩
    rw [hval] at hle
    omega
  have hmain := @update_vaccinations_proceed t_remote remote dir false fs fs1 hcd hok hgate
  have hnot : (dir ++ [lu_name]) ∉
      prune (fs1.write (dir ++ [lu_name]) (Entry.marker t_remote))
        (vac_file_names.map (fun n => dir ++ [n])) false :=
    fun hmem => vac_files_ne_marker (prune_sub hmem) rfl
  refine ⟨hval, ?_, ?_⟩
  · rw [hmain]
    cases (run_vac_items remote
        (prune (fs1.write (dir ++ [lu_name]) (Entry.marker t_remote))
          (vac_file_names.map (fun n => dir ++ [n])) false)
        (fs1.write (dir ++ [lu_name]) (Entry.marker t_remote))).2.2 <;> simp
  · rw [hmain]
    show ((run_vac_items remote _ _).1).read _ = _
    rw [run_vac_items_read_not_mem _ _ _ _ hnot, FS.read_write_self]

/-- Concrete instance of C8: empty prior state, remote marker 3; the run
proceeds (even though every data download then fails) and the marker is
written. -/
theorem vac_first_sync_sentinel_check :
    localMarkerValue [(["data"], Entry.dir)]
      (["data"] ++ [lu_name]) = 0 ∧
    (update_vaccinations 3 remNone ["data"] false []).2.2 ≠ Outcome.noWork ∧
    (update_vaccinations 3 remNone ["data"] false []).1.read
      (["data"] ++ [lu_name]) = some (Entry.marker 3) :=
  vac_first_sync_sentinel 3 remNone ["data"] [] [(["data"], Entry.dir)]
    (by decide) (by decide) (by decide)

/-- C10: with `force=false`, a remote marker strictly newer than the local
one, and all four fixed dataset files already present, the work list is
fully pruned — zero downloads, every dataset file left with its stale
content — while the local marker file is still rewritten with the newly
fetched remote timestamp. -/
theorem vac_marker_advances_without_downloads (t_remote : Int)
    (remote : String → Option Nat) (dir : FPath) (fs fs1 : FS)
    (hcd : create_dir fs dir = some fs1)
    (hok : markerOk fs1 (dir ++ [lu_name]) = true)
    (hlt : localMarkerValue fs1 (dir ++ [lu_name]) < t_remote)
    (hex : ∀ n ∈ vac_file_names, fs1.hasFile (dir ++ [n]) = true) :
    (update_vaccinations t_remote remote dir false fs).2.1 = [] ∧
    (update_vaccinations t_remote remote dir false fs).2.2 = Outcome.ok ∧
    (update_vaccinations t_remote remote dir false fs).1.read
      (dir ++ [lu_name]) = some (Entry.marker t_remote) ∧
    ∀ n ∈ vac_file_names,
      (update_vaccinations t_remote remote dir false fs).1.read (dir ++ [n]) =
        fs1.read (dir ++ [n]) := by
  have hgate : ¬((false : Bool) = false ∧
      t_remote ≤ localMarkerValue fs1 (dir ++ [lu_name])) := by
    rintro ⟨-, hle⟩
    omega
  have hmain := @update_vaccinations_proceed t_remote remote dir false fs fs1 hcd hok hgate
  have hwork : prune (fs1.write (dir ++ [lu_name]) (Entry.marker t_remote))
      (vac_file_names.map (fun n => dir ++ [n])) false = [] := by
    rw [List.eq_nil_iff_forall_not_mem]
    intro f hmem
    have hsplit := mem_prune_false.1 hmem
    have hne := vac_files_ne_marker hsplit.1
    obtain ⟨n, hn, rfl⟩ := List.mem_map.1 hsplit.1
    have : (fs1.write (dir ++ [lu_name]) (Entry.marker t_remote)).hasFile
        (dir ++ [n]) = true := by
      show ((fs1.write (dir ++ [lu_name]) (Entry.marker t_remote)).read
        (dir ++ [n])).isSome = true
      rw [FS.read_write_ne _ _ _ _ (fun h => hne h.symm)]
      exact hex n hn
    rw [this] at hsplit
    cases hsplit.2
  rw [hwork] at hmain
  rw [hmain]
  refine ⟨rfl, rfl, FS.read_write_self _ _ _, ?_⟩
  intro n hn
  have hne : dir ++ [lu_name] ≠ dir ++ [n] := by
    intro h
    exact vac_files_ne_marker (List.mem_map.2 ⟨n, hn, rfl⟩) h.symm
  exact FS.read_write_ne _ _ _ _ hne

/-- Concrete instance of C10: marker 1 on disk, remote marker 8, all four
files present with stale content: no downloads, data unchanged, marker
rewritten to 8. -/
theorem vac_marker_advances_without_downloads_check :
    (update_vaccinations 8 remAll ["data"] false fsC10).2.1 = [] ∧
    (update_vaccinations 8 remAll ["data"] false fsC10).2.2 = Outcome.ok ∧
    (update_vaccinations 8 remAll ["data"] false fsC10).1.read
      (["data"] ++ [lu_name]) = some (Entry.marker 8) ∧
    (update_vaccinations 8 remAll ["data"] false fsC10).1.read
      (["data"] ++ ["platea.csv"]) = FS.read fsC10 (["data"] ++ ["platea.csv"]) := by
  have h := vac_marker_advances_without_downloads 8 remAll ["data"] fsC10 fsC10
    (by decide) (by decide) (by decide) (by decide)
  exact ⟨h.1, h.2.1, h.2.2.1, h.2.2.2 _ (by decide)⟩

/-- C9: with `force=false` every entry present before a contagions run
keeps its content after the run — existing files are never overwritten,
for every remote, every starting filesystem, and whatever the staging and
fetch outcomes (including failing, aborted runs); with `force=true` the
work list is the full expected list regardless of local presence and, when
every fetch succeeds, every expected file's URL is fetched and its table
written, overwriting prior content. -/
theorem contagions_force_semantics (remote : String → Option Nat)
    (today : Nat) (dir : FPath) (s e : Timestamp) (fs fs1 : FS)
    (hstage : stage_dirs fs (contagion_dirs dir) = (fs1, true)) :
    (∀ (rem0 : String → Option Nat) (fs0 : FS) (p : FPath) (en : Entry),
      fs0.read p = some en →
      (update_contagions rem0 today dir s e false fs0).1.read p = some en) ∧
    contagion_plan fs1 dir s e true = expectedFiles dir s e ∧
    ((∀ f ∈ expectedFiles dir s e, (remote (mkUrl f)).isSome = true) →
      (update_contagions remote today dir s e true fs).2.1 =
        (expectedFiles dir s e).map mkUrl ∧
      ∀ f ∈ expectedFiles dir s e,
        (update_contagions remote today dir s e true fs).1.read f =
          Option.map Entry.table (remote (mkUrl f))) := by
  refine ⟨?_, by rw [contagion_plan, prune_force], ?_⟩
  · intro rem0 fs0 p en hp
    rcases hst : stage_dirs fs0 (contagion_dirs dir) with ⟨fsx, b⟩
    cases b
    · have hmain : update_contagions rem0 today dir s e false fs0 =
          (fsx, [], Outcome.mkdirErr) := by
        unfold update_contagions
        rw [hst]
      rw [hmain]
      exact stage_dirs_preserve hst hp
    · have hrunF := @update_contagions_run rem0 today dir s e false fs0 fsx hst
      have hp1 : fsx.read p = some en := stage_dirs_preserve hst hp
      have hnot : p ∉ contagion_plan fsx dir s e false := by
        intro hmem
        have := (mem_prune_false.1 hmem).2
        rw [FS.hasFile, hp1] at this
        cases this
      rw [hrunF]
      show ((run_items rem0 today (contagion_plan fsx dir s e false) fsx).1).read p = some en
      rw [run_items_read_not_mem _ _ _ _ _ hnot]
      exact hp1
  · intro hrem
    have hrunT := @update_contagions_run remote today dir s e true fs fs1 hstage
    obtain ⟨hlog, -, hread⟩ := run_items_success remote today
      (contagion_plan fs1 dir s e true) fs1
      (by rw [contagion_plan, prune_force]; exact hrem)
    constructor
    · rw [hrunT]
      show (run_items remote today (contagion_plan fs1 dir s e true) fs1).2.1 = _
      rw [hlog, contagion_plan, prune_force]
    · intro f hf
      rw [hrunT]
      show ((run_items remote today (contagion_plan fs1 dir s e true) fs1).1).read f = _
      exact hread f (by rwa [contagion_plan, prune_force])

/-- Concrete instance of C9: a present file keeps its content 42 under
`force=false`, and is overwritten with the fetched content 7 under
`force=true`. -/
theorem contagions_force_semantics_check :
    (update_contagions remAll dayT ["data"] tsT tsT false fsW).1.read
      ["data", "dati-andamento-nazionale",
       "dpc-covid19-ita-andamento-nazionale-20210202.csv"] =
        some (Entry.table 42) ∧
    (update_contagions remAll dayT ["data"] tsT tsT true fsW).1.read
      ["data", "dati-andamento-nazionale",
       "dpc-covid19-ita-andamento-nazionale-20210202.csv"] =
        some (Entry.table 7) := by
  have h := contagions_force_semantics remAll dayT ["data"] tsT tsT fsW
    ((stage_dirs fsW (contagion_dirs ["data"])).1) (by decide)
  refine ⟨h.1 remAll fsW _ (Entry.table 42) (by decide), ?_⟩
  have h4 := (h.2.2 (by decide)).2
    ["data", "dati-andamento-nazionale",
     "dpc-covid19-ita-andamento-nazionale-20210202.csv"] (by decide)
  simpa using h4

end Covid
